import Mathlib

/-!
Verification development for the airfoil shape-optimization scripts
`497project.py` and `497project_COMBO.py`.

The scripts are glue code around external aerodynamic libraries.  We embed
the repository's own logic shallowly:

* Python dictionaries holding the functional values become association
  lists `List (String × Val)` with Python assignment semantics
  (`dSet` updates an existing key in place, otherwise appends);
* scalar functional values become rationals (`Val := ℚ`); the scripts do
  only exact copies and subtractions of the configured targets, so exact
  arithmetic is faithful to every claim considered here;
* a read `funcs[k]` that may raise `KeyError` becomes `pyGet`, returning
  `Except String Val`;
* the module-level history lists become explicit state threaded through
  `objCon`; on an uncaught `KeyError` the partially-updated state is
  returned together with the error, mirroring Python's global lists
  surviving an exception;
* `print` calls become an output trace (a `List PyDict` of printed
  dictionaries) where the claims refer to printing, and are dropped where
  they cannot affect any claim;
* the external collaborators (`DVConstraints`, `CMPLXFOIL`, `AeroProblem`)
  are abstracted by the entries they write into the dictionaries passed to
  them, via the `Externals` structure.
-/

/-- Scalar functional values (drag, lift, moment coefficients, residuals). -/
abbrev Val := ℚ

/-- A Python dictionary from string keys to scalar values, in insertion order. -/
abbrev PyDict := List (String × Val)

/-- Lookup of a key in a dictionary, `d.get(k)` semantics. -/
def dLookup : PyDict → String → Option Val
  | [], _ => none
  | (k', v) :: rest, k => if k' = k then some v else dLookup rest k

/-- Key-membership test, `k in d` semantics. -/
def dHasKey (d : PyDict) (k : String) : Bool :=
  (dLookup d k).isSome

/-- Python dictionary assignment `d[k] = v`: replace the value at an existing
key keeping its position, otherwise append the new pair at the end. -/
def dSet : PyDict → String → Val → PyDict
  | [], k, v => [(k, v)]
  | (k', v') :: rest, k, v =>
    if k' = k then (k', v) :: rest else (k', v') :: dSet rest k v

/-- A Python subscript read `d[k]`: the value when the key is present,
otherwise a `KeyError`. -/
def pyGet (d : PyDict) (k : String) : Except String Val :=
  match dLookup d k with
  | some v => Except.ok v
  | none => Except.error ("KeyError: " ++ k)

/-- Apply a sequence of dictionary assignments in order. -/
def dSetAll (d : PyDict) : List (String × Val) → PyDict
  | [] => d
  | kv :: ws => dSetAll (dSet d kv.1 kv.2) ws

/-- Left-biased choice on optional values. -/
def optOr : Option Val → Option Val → Option Val
  | some v, _ => some v
  | none, o => o

/-- The value of the last assignment to key `k` in a write sequence, if any. -/
def lastWrite : List (String × Val) → String → Option Val
  | [], _ => none
  | kv :: ws, k => optOr (lastWrite ws k) (if kv.1 = k then some kv.2 else none)

/-!
Problem parameters shared by both scripts (`mycl = 0.5`, `mycm = 0.03`,
`ap = AeroProblem(name="fc", ...)`, `nCoeff = 4`).  The COMBO script
redefines the parameters once per optimizer section with identical values.
-/

/-- The slice of the external `baseclasses.AeroProblem` object the scripts
use: its `name` attribute. -/
structure AeroProblem where
  name : String

/-- Subscripting contract of the external `AeroProblem`: `ap[key]` is the
string `name + "_" + key`.  The scripts rely on it throughout, e.g. the
literal key list `["fc_cd", "fc_cl", "fc_cm", "fail"]` printed by
`cruiseFuncsSens` for the problem named `"fc"`. -/
def apGet (a : AeroProblem) (key : String) : String :=
  a.name ++ "_" ++ key

/-- The aero problem both scripts construct: `AeroProblem(name="fc", ...)`. -/
def ap : AeroProblem := ⟨"fc"⟩

/-- Target lift coefficient, `mycl = 0.5`. -/
def mycl : Val := 1 / 2

/-- Target moment coefficient, `mycm = 0.03`. -/
def mycm : Val := 3 / 100

/-- Number of CST coefficients on each surface, `nCoeff = 4`. -/
def nCoeff : ℕ := 4

/-!
The `objCon` callback of `497project.py` (lines 140–156).  The module-level
history lists `obj_vals_SLSQP`, `cl_con_vals_SLSQP`, `cm_con_vals_SLSQP`
become the `Hist` record threaded through the call; the result carries the
history state as left component (kept even when a `KeyError` escapes, as
Python's global lists would be) and either the error or the returned
dictionary together with the list of dictionaries printed by the optional
debug `print`.
-/

namespace Proj

/-- History buffers of `497project.py`: `obj_vals_SLSQP`, `cl_con_vals_SLSQP`,
`cm_con_vals_SLSQP`, initialized to empty lists. -/
structure Hist where
  obj_vals_SLSQP : List Val
  cl_con_vals_SLSQP : List Val
  cm_con_vals_SLSQP : List Val
deriving DecidableEq

/-- The initial (empty) history state of `497project.py`. -/
def hist0 : Hist := ⟨[], [], []⟩

/-- The `objCon` of `497project.py`:

    funcs["obj"] = funcs[ap["cd"]]
    funcs["cl_con_" + ap.name] = funcs[ap["cl"]] - mycl
    funcs["cm_con_" + ap.name] = funcs[ap["cm"]] - mycm
    obj_vals_SLSQP.append(funcs["obj"])
    cl_con_vals_SLSQP.append(funcs["cl_con_" + ap.name])
    cm_con_vals_SLSQP.append(funcs["cm_con_" + ap.name])
    if printOK: print("funcs in obj:", funcs)
    return funcs
-/
def objCon (funcs : PyDict) (printOK : Bool) (h : Hist) :
    Hist × Except String (PyDict × List PyDict) :=
  match pyGet funcs (apGet ap "cd") with
  | Except.error e => (h, Except.error e)
  | Except.ok cd =>
    let funcs := dSet funcs "obj" cd
    match pyGet funcs (apGet ap "cl") with
    | Except.error e => (h, Except.error e)
    | Except.ok cl =>
      let funcs := dSet funcs ("cl_con_" ++ ap.name) (cl - mycl)
      match pyGet funcs (apGet ap "cm") with
      | Except.error e => (h, Except.error e)
      | Except.ok cmv =>
        let funcs := dSet funcs ("cm_con_" ++ ap.name) (cmv - mycm)
        match pyGet funcs "obj" with
        | Except.error e => (h, Except.error e)
        | Except.ok v1 =>
          let h := { h with obj_vals_SLSQP := h.obj_vals_SLSQP ++ [v1] }
          match pyGet funcs ("cl_con_" ++ ap.name) with
          | Except.error e => (h, Except.error e)
          | Except.ok v2 =>
            let h := { h with cl_con_vals_SLSQP := h.cl_con_vals_SLSQP ++ [v2] }
            match pyGet funcs ("cm_con_" ++ ap.name) with
            | Except.error e => (h, Except.error e)
            | Except.ok v3 =>
              let h := { h with cm_con_vals_SLSQP := h.cm_con_vals_SLSQP ++ [v3] }
              (h, Except.ok (funcs, if printOK then [funcs] else []))

/-- Dictionary returned by a successful run of the base script's `objCon`. -/
def finalDict (funcs : PyDict) (cd cl cmv : Val) : PyDict :=
  dSet (dSet (dSet funcs "obj" cd) "cl_con_fc" (cl - mycl)) "cm_con_fc" (cmv - mycm)

end Proj

/-!
The three `objCon` definitions of `497project_COMBO.py`.  Each optimizer
section (SLSQP lines 138–156, CONMIN lines 339–357, IPOPT lines 535–553)
has its own four history lists, including an extra `fc_cd_vals_*` list.
The SLSQP section's moment line subtracts `mycl` where the other two
sections subtract `mycm`; the embeddings reproduce each section verbatim.
-/

namespace ComboSLSQP

/-- History buffers of the SLSQP section of `497project_COMBO.py`. -/
structure Hist where
  obj_vals_SLSQP : List Val
  cl_con_vals_SLSQP : List Val
  cm_con_vals_SLSQP : List Val
  fc_cd_vals_SLSQP : List Val
deriving DecidableEq

/-- The initial (empty) history state of the SLSQP section. -/
def hist0 : Hist := ⟨[], [], [], []⟩

/-- The `objCon` of the SLSQP section of `497project_COMBO.py`
(lines 143–156).  Note line 147 subtracts `mycl`, not `mycm`:

    funcs["obj"] = funcs[ap["cd"]]
    funcs["cl_con_" + ap.name] = funcs[ap["cl"]] - mycl
    funcs["cm_con_" + ap.name] = funcs[ap["cm"]] - mycl
    obj_vals_SLSQP.append(funcs["obj"])
    cl_con_vals_SLSQP.append(funcs["cl_con_" + ap.name])
    cm_con_vals_SLSQP.append(funcs["cm_con_" + ap.name])
    fc_cd_vals_SLSQP.append(funcs["fc_cd"])
    if printOK: print("funcs in obj:", funcs)
    return funcs
-/
def objCon (funcs : PyDict) (printOK : Bool) (h : Hist) :
    Hist × Except String (PyDict × List PyDict) :=
  match pyGet funcs (apGet ap "cd") with
  | Except.error e => (h, Except.error e)
  | Except.ok cd =>
    let funcs := dSet funcs "obj" cd
    match pyGet funcs (apGet ap "cl") with
    | Except.error e => (h, Except.error e)
    | Except.ok cl =>
      let funcs := dSet funcs ("cl_con_" ++ ap.name) (cl - mycl)
      match pyGet funcs (apGet ap "cm") with
      | Except.error e => (h, Except.error e)
      | Except.ok cmv =>
        let funcs := dSet funcs ("cm_con_" ++ ap.name) (cmv - mycl)
        match pyGet funcs "obj" with
        | Except.error e => (h, Except.error e)
        | Except.ok v1 =>
          let h := { h with obj_vals_SLSQP := h.obj_vals_SLSQP ++ [v1] }
          match pyGet funcs ("cl_con_" ++ ap.name) with
          | Except.error e => (h, Except.error e)
          | Except.ok v2 =>
            let h := { h with cl_con_vals_SLSQP := h.cl_con_vals_SLSQP ++ [v2] }
            match pyGet funcs ("cm_con_" ++ ap.name) with
            | Except.error e => (h, Except.error e)
            | Except.ok v3 =>
              let h := { h with cm_con_vals_SLSQP := h.cm_con_vals_SLSQP ++ [v3] }
              match pyGet funcs "fc_cd" with
              | Except.error e => (h, Except.error e)
              | Except.ok v4 =>
                let h := { h with fc_cd_vals_SLSQP := h.fc_cd_vals_SLSQP ++ [v4] }
                (h, Except.ok (funcs, if printOK then [funcs] else []))

/-- Dictionary returned by a successful run of the COMBO SLSQP `objCon`
(note the `mycl` in the moment entry). -/
def finalDict (funcs : PyDict) (cd cl cmv : Val) : PyDict :=
  dSet (dSet (dSet funcs "obj" cd) "cl_con_fc" (cl - mycl)) "cm_con_fc" (cmv - mycl)

end ComboSLSQP

namespace ComboCONMIN

/-- History buffers of the CONMIN section of `497project_COMBO.py`. -/
structure Hist where
  obj_vals_CONMIN : List Val
  cl_con_vals_CONMIN : List Val
  cm_con_vals_CONMIN : List Val
  fc_cd_vals_CONMIN : List Val
deriving DecidableEq

/-- The initial (empty) history state of the CONMIN section. -/
def hist0 : Hist := ⟨[], [], [], []⟩

/-- The `objCon` of the CONMIN section of `497project_COMBO.py`
(lines 344–357):

    funcs["obj"] = funcs[ap["cd"]]
    funcs["cl_con_" + ap.name] = funcs[ap["cl"]] - mycl
    funcs["cm_con_" + ap.name] = funcs[ap["cm"]] - mycm
    obj_vals_CONMIN.append(funcs["obj"])
    cl_con_vals_CONMIN.append(funcs["cl_con_" + ap.name])
    cm_con_vals_CONMIN.append(funcs["cm_con_" + ap.name])
    fc_cd_vals_CONMIN.append(funcs["fc_cd"])
    if printOK: print("funcs in obj:", funcs)
    return funcs
-/
def objCon (funcs : PyDict) (printOK : Bool) (h : Hist) :
    Hist × Except String (PyDict × List PyDict) :=
  match pyGet funcs (apGet ap "cd") with
  | Except.error e => (h, Except.error e)
  | Except.ok cd =>
    let funcs := dSet funcs "obj" cd
    match pyGet funcs (apGet ap "cl") with
    | Except.error e => (h, Except.error e)
    | Except.ok cl =>
      let funcs := dSet funcs ("cl_con_" ++ ap.name) (cl - mycl)
      match pyGet funcs (apGet ap "cm") with
      | Except.error e => (h, Except.error e)
      | Except.ok cmv =>
        let funcs := dSet funcs ("cm_con_" ++ ap.name) (cmv - mycm)
        match pyGet funcs "obj" with
        | Except.error e => (h, Except.error e)
        | Except.ok v1 =>
          let h := { h with obj_vals_CONMIN := h.obj_vals_CONMIN ++ [v1] }
          match pyGet funcs ("cl_con_" ++ ap.name) with
          | Except.error e => (h, Except.error e)
          | Except.ok v2 =>
            let h := { h with cl_con_vals_CONMIN := h.cl_con_vals_CONMIN ++ [v2] }
            match pyGet funcs ("cm_con_" ++ ap.name) with
            | Except.error e => (h, Except.error e)
            | Except.ok v3 =>
              let h := { h with cm_con_vals_CONMIN := h.cm_con_vals_CONMIN ++ [v3] }
              match pyGet funcs "fc_cd" with
              | Except.error e => (h, Except.error e)
              | Except.ok v4 =>
                let h := { h with fc_cd_vals_CONMIN := h.fc_cd_vals_CONMIN ++ [v4] }
                (h, Except.ok (funcs, if printOK then [funcs] else []))

/-- Dictionary returned by a successful run of the COMBO CONMIN `objCon`. -/
def finalDict (funcs : PyDict) (cd cl cmv : Val) : PyDict :=
  dSet (dSet (dSet funcs "obj" cd) "cl_con_fc" (cl - mycl)) "cm_con_fc" (cmv - mycm)

end ComboCONMIN

namespace ComboIPOPT

/-- History buffers of the IPOPT section of `497project_COMBO.py`. -/
structure Hist where
  obj_vals_IPOPT : List Val
  cl_con_vals_IPOPT : List Val
  cm_con_vals_IPOPT : List Val
  fc_cd_vals_IPOPT : List Val
deriving DecidableEq

/-- The initial (empty) history state of the IPOPT section. -/
def hist0 : Hist := ⟨[], [], [], []⟩

/-- The `objCon` of the IPOPT section of `497project_COMBO.py`
(lines 540–553):

    funcs["obj"] = funcs[ap["cd"]]
    funcs["cl_con_" + ap.name] = funcs[ap["cl"]] - mycl
    funcs["cm_con_" + ap.name] = funcs[ap["cm"]] - mycm
    obj_vals_IPOPT.append(funcs["obj"])
    cl_con_vals_IPOPT.append(funcs["cl_con_" + ap.name])
    cm_con_vals_IPOPT.append(funcs["cm_con_" + ap.name])
    fc_cd_vals_IPOPT.append(funcs["fc_cd"])
    if printOK: print("funcs in obj:", funcs)
    return funcs
-/
def objCon (funcs : PyDict) (printOK : Bool) (h : Hist) :
    Hist × Except String (PyDict × List PyDict) :=
  match pyGet funcs (apGet ap "cd") with
  | Except.error e => (h, Except.error e)
  | Except.ok cd =>
    let funcs := dSet funcs "obj" cd
    match pyGet funcs (apGet ap "cl") with
    | Except.error e => (h, Except.error e)
    | Except.ok cl =>
      let funcs := dSet funcs ("cl_con_" ++ ap.name) (cl - mycl)
      match pyGet funcs (apGet ap "cm") with
      | Except.error e => (h, Except.error e)
      | Except.ok cmv =>
        let funcs := dSet funcs ("cm_con_" ++ ap.name) (cmv - mycm)
        match pyGet funcs "obj" with
        | Except.error e => (h, Except.error e)
        | Except.ok v1 =>
          let h := { h with obj_vals_IPOPT := h.obj_vals_IPOPT ++ [v1] }
          match pyGet funcs ("cl_con_" ++ ap.name) with
          | Except.error e => (h, Except.error e)
          | Except.ok v2 =>
            let h := { h with cl_con_vals_IPOPT := h.cl_con_vals_IPOPT ++ [v2] }
            match pyGet funcs ("cm_con_" ++ ap.name) with
            | Except.error e => (h, Except.error e)
            | Except.ok v3 =>
              let h := { h with cm_con_vals_IPOPT := h.cm_con_vals_IPOPT ++ [v3] }
              match pyGet funcs "fc_cd" with
              | Except.error e => (h, Except.error e)
              | Except.ok v4 =>
                let h := { h with fc_cd_vals_IPOPT := h.fc_cd_vals_IPOPT ++ [v4] }
                (h, Except.ok (funcs, if printOK then [funcs] else []))

/-- Dictionary returned by a successful run of the COMBO IPOPT `objCon`. -/
def finalDict (funcs : PyDict) (cd cl cmv : Val) : PyDict :=
  dSet (dSet (dSet funcs "obj" cd) "cl_con_fc" (cl - mycl)) "cm_con_fc" (cmv - mycm)

end ComboIPOPT

/-!
The evaluation callbacks `cruiseFuncs` and `cruiseFuncsSens` (identical in
both scripts).  The external collaborators are abstracted by the sequences
of dictionary entries they write into the dictionary handed to them:

* `DVCon.evalFunctions(funcs)`, `CFDSolver.evalFunctions(ap, funcs)` and
  `CFDSolver.checkSolutionFailure(ap, funcs)` depend on the design
  variables `x` previously pushed through `DVGeo.setDesignVars(x)` /
  `ap.setDesignVars(x)` and on the flow solve `CFDSolver(ap)`, so their
  write sequences are functions of `x`;
* `DVCon.evalFunctionsSens(funcsSens)`, `CFDSolver.evalFunctionsSens(ap,
  funcsSens)` and `CFDSolver.checkAdjointFailure(ap, funcsSens)` are called
  with no argument from the sensitivity callback's own parameters, so their
  write sequences are fixed by the captured global solver state.

The `print` statements of `cruiseFuncs` iterate over existing entries and
cannot fail or write, so they are not modelled; the print loop of
`cruiseFuncsSens` subscripts `funcsSens["fc_cd"]`, `["fc_cl"]`, `["fc_cm"]`,
`["fail"]` and can raise `KeyError`, so it is modelled, returning the
printed values.
-/

/-- A design-variable dictionary handed to the callbacks by the optimizer. -/
abbrev DesignVars := List (String × Val)

/-- The entries the external evaluators write, abstracting the global solver,
geometry and constraint objects of one script section. -/
structure Externals where
  dvconEvalWrites : DesignVars → List (String × Val)
  solverEvalWrites : DesignVars → List (String × Val)
  solutionFailureWrites : DesignVars → List (String × Val)
  dvconSensWrites : List (String × Val)
  solverSensWrites : List (String × Val)
  adjointFailureWrites : List (String × Val)

/-- The `cruiseFuncs` callback of both scripts:

    def cruiseFuncs(x):
        print(x)
        DVGeo.setDesignVars(x)
        ap.setDesignVars(x)
        CFDSolver(ap)
        funcs = {}
        DVCon.evalFunctions(funcs)
        CFDSolver.evalFunctions(ap, funcs)
        CFDSolver.checkSolutionFailure(ap, funcs)
        if MPI.COMM_WORLD.rank == 0: ...print funcs items...
        return funcs
-/
def cruiseFuncs (ext : Externals) (x : DesignVars) : PyDict :=
  let funcs : PyDict := []
  let funcs := dSetAll funcs (ext.dvconEvalWrites x)
  let funcs := dSetAll funcs (ext.solverEvalWrites x)
  let funcs := dSetAll funcs (ext.solutionFailureWrites x)
  funcs

/-- The `cruiseFuncsSens` callback of both scripts:

    def cruiseFuncsSens(x, funcs):
        funcsSens = {}
        DVCon.evalFunctionsSens(funcsSens)
        CFDSolver.evalFunctionsSens(ap, funcsSens)
        CFDSolver.checkAdjointFailure(ap, funcsSens)
        print("function sensitivities:")
        evalFunc = ["fc_cd", "fc_cl", "fc_cm", "fail"]
        for var in evalFunc: print(funcsSens[var])
        return funcsSens

The result carries the returned dictionary and the four printed values. -/
def cruiseFuncsSens (ext : Externals) (x : DesignVars) (funcs : PyDict) :
    Except String (PyDict × List Val) :=
  let funcsSens : PyDict := []
  let funcsSens := dSetAll funcsSens ext.dvconSensWrites
  let funcsSens := dSetAll funcsSens ext.solverSensWrites
  let funcsSens := dSetAll funcsSens ext.adjointFailureWrites
  match pyGet funcsSens "fc_cd" with
  | Except.error e => Except.error e
  | Except.ok p1 =>
    match pyGet funcsSens "fc_cl" with
    | Except.error e => Except.error e
    | Except.ok p2 =>
      match pyGet funcsSens "fc_cm" with
      | Except.error e => Except.error e
      | Except.ok p3 =>
        match pyGet funcsSens "fail" with
        | Except.error e => Except.error e
        | Except.ok p4 =>
          Except.ok (funcsSens, [p1, p2, p3, p4])

/-- The sensitivity dictionary assembled inside `cruiseFuncsSens` before the
print loop: the three external sensitivity evaluators applied to `{}`. -/
def sensAsm (ext : Externals) : PyDict :=
  dSetAll (dSetAll (dSetAll [] ext.dvconSensWrites) ext.solverSensWrites)
    ext.adjointFailureWrites

/-!
The hand-built linear constraint (identical in both scripts, e.g.
`497project.py` lines 183–192):

    jac = np.zeros((1, nCoeff), dtype=float)
    jac[0, 0] = 1.0
    optProb.addCon(
        "first_cst_coeff_match", lower=0.0, upper=0.0, linear=True,
        wrt=["upper_shape", "lower_shape"],
        jac={"upper_shape": jac, "lower_shape": jac},
    )

A 1-by-n Jacobian is its single row; `pyoptsparse` evaluates a linear
constraint as the sum over the `wrt` groups of the group Jacobian applied
to the group's coefficient vector.
-/

/-- The single row of `np.zeros((1, nCoeff))` after `jac[0, 0] = 1.0`. -/
def jac : List Val :=
  (List.replicate nCoeff (0 : Val)).set 0 1

/-- Dot product of a Jacobian row with a coefficient vector. -/
def dot : List Val → List Val → Val
  | [], _ => 0
  | _, [] => 0
  | a :: as, b :: bs => a * b + dot as bs

/-- A one-dimensional linear constraint declared via `optProb.addCon`:
bounds, the groups it acts on, and one Jacobian row per group. -/
structure LinearCon where
  lower : Val
  upper : Val
  wrt : List String
  rows : List (String × List Val)

/-- The `first_cst_coeff_match` constraint declared by both scripts. -/
def first_cst_coeff_match : LinearCon :=
  { lower := 0
    upper := 0
    wrt := ["upper_shape", "lower_shape"]
    rows := [("upper_shape", jac), ("lower_shape", jac)] }

/-- Value of a linear constraint on an assignment of coefficient vectors to
group names: the sum over its rows of row · vector (a missing group
contributes an empty vector). -/
def evalLinearCon (c : LinearCon) (asg : List (String × List Val)) : Val :=
  (c.rows.map (fun r =>
      dot r.2 (((asg.find? (fun g => g.1 = r.1)).map Prod.snd).getD []))).sum

/-!
Observers on an `objCon` result (history state paired with either the
uncaught error or the returned dictionary and printed trace), and a runner
for a sequence of completed calls.
-/

/-- The dictionary an `objCon` call returned, if it completed. -/
def resultDict {B : Type} (r : B × Except String (PyDict × List PyDict)) :
    Option PyDict :=
  match r.2 with
  | Except.ok p => some p.1
  | Except.error _ => none

/-- The uncaught error of an `objCon` call, if any. -/
def resultErr {B : Type} (r : B × Except String (PyDict × List PyDict)) :
    Option String :=
  match r.2 with
  | Except.ok _ => none
  | Except.error e => some e

/-- An entry of the dictionary an `objCon` call returned (`none` when the
call raised, or when the entry is absent). -/
def resultLookup {B : Type} (r : B × Except String (PyDict × List PyDict))
    (k : String) : Option Val :=
  match r.2 with
  | Except.ok p => dLookup p.1 k
  | Except.error _ => none

/-- Run a sequence of `objCon` calls (each given its input dictionary and
`printOK` flag), threading the history state; `some` final state exactly
when every call completed. -/
def runSeq {B : Type}
    (step : PyDict → Bool → B → B × Except String (PyDict × List PyDict)) :
    List (PyDict × Bool) → B → Option B
  | [], b => some b
  | c :: rest, b =>
    match step c.1 c.2 b with
    | (b', Except.ok _) => runSeq step rest b'
    | (_, Except.error _) => none

/-!
Concrete sample inputs used to instantiate the theorems below.
-/

/-- A sample functional dictionary holding the three flow functionals. -/
def funcsEx : PyDict := [("fc_cd", 1 / 50), ("fc_cl", 3 / 5), ("fc_cm", 1 / 10)]

/-- A sample functional dictionary carrying an extra geometric entry that
`objCon` must leave untouched. -/
def funcsEx2 : PyDict :=
  [("fc_cd", 1 / 50), ("fc_cl", 3 / 5), ("fc_cm", 1 / 10),
   ("DVCon1_volume_constraint_0", 9)]

/-- A sample input dictionary that already contains an `"obj"` entry. -/
def funcsEx3 : PyDict := [("fc_cd", 1), ("fc_cl", 2), ("fc_cm", 3), ("obj", 99)]

/-- A sample input containing lift and moment entries but no `"fc_cd"`. -/
def funcsNoCd : PyDict := [("fc_cl", 3 / 5), ("fc_cm", 1 / 10)]

/-- Sample external evaluators: geometric constraints, the three flow
functionals, and the failure flags (`0` meaning no failure). -/
def extEx : Externals :=
  { dvconEvalWrites := fun _ => [("DVCon1_volume_constraint_0", 9)]
    solverEvalWrites := fun _ => [("fc_cd", 1 / 50), ("fc_cl", 3 / 5), ("fc_cm", 1 / 10)]
    solutionFailureWrites := fun _ => [("fail", 0)]
    dvconSensWrites := []
    solverSensWrites := [("fc_cd", 5), ("fc_cl", 6), ("fc_cm", 7)]
    adjointFailureWrites := [("fail", 0)] }

/-!
Library of lemmas on the dictionary model.
-/

theorem dLookup_dSet (d : PyDict) (k' k : String) (v : Val) :
    dLookup (dSet d k' v) k = if k' = k then some v else dLookup d k := by
  induction d with
  | nil => simp [dSet, dLookup]
  | cons hd tl ih =>
    obtain ⟨k'', v''⟩ := hd
    by_cases h1 : k'' = k'
    · subst h1
      by_cases h2 : k'' = k
      · subst h2
        simp [dSet, dLookup]
      · simp [dSet, dLookup, h2]
    · by_cases h2 : k'' = k
      · subst h2
        simp [dSet, dLookup, h1, Ne.symm h1]
      · simp [dSet, dLookup, h1, h2, ih]

theorem dLookup_dSet_self (d : PyDict) (k : String) (v : Val) :
    dLookup (dSet d k v) k = some v := by
  simp [dLookup_dSet]

theorem dLookup_dSet_ne (d : PyDict) (k' k : String) (v : Val) (h : k' ≠ k) :
    dLookup (dSet d k' v) k = dLookup d k := by
  simp [dLookup_dSet, h]

theorem optOr_none_right (a : Option Val) : optOr a none = a := by
  cases a <;> rfl

theorem optOr_assoc (a b c : Option Val) :
    optOr (optOr a b) c = optOr a (optOr b c) := by
  cases a <;> cases b <;> rfl

theorem dLookup_dSetAll (ws : List (String × Val)) (d : PyDict) (k : String) :
    dLookup (dSetAll d ws) k = optOr (lastWrite ws k) (dLookup d k) := by
  induction ws generalizing d with
  | nil => simp [dSetAll, lastWrite, optOr]
  | cons kv ws ih =>
    simp only [dSetAll, lastWrite, ih, dLookup_dSet]
    cases h : lastWrite ws k with
    | some v => simp [optOr]
    | none =>
      by_cases hk : kv.1 = k <;> simp [optOr, hk]

theorem lastWrite_append (ws1 ws2 : List (String × Val)) (k : String) :
    lastWrite (ws1 ++ ws2) k = optOr (lastWrite ws2 k) (lastWrite ws1 k) := by
  induction ws1 with
  | nil => simp [lastWrite, optOr_none_right]
  | cons kv ws ih =>
    simp only [List.cons_append, lastWrite, List.append_eq, ih, optOr_assoc]

theorem apGet_cd : apGet ap "cd" = "fc_cd" := rfl

theorem apGet_cl : apGet ap "cl" = "fc_cl" := rfl

theorem apGet_cm : apGet ap "cm" = "fc_cm" := rfl

/-!
Characterization lemmas: each `objCon` variant either raises the `KeyError`
of the first missing input key, leaving the history state exactly as it
was, or completes, appending exactly one value to each of its history
lists and returning the input dictionary augmented with the three computed
entries.
-/

theorem Proj.objCon_run_base (funcs : PyDict) (printOK : Bool) (h : Hist)
    (cd cl cmv : Val)
    (hcd : dLookup funcs "fc_cd" = some cd)
    (hcl : dLookup funcs "fc_cl" = some cl)
    (hcm : dLookup funcs "fc_cm" = some cmv) :
    Proj.objCon funcs printOK h =
      ({ obj_vals_SLSQP := h.obj_vals_SLSQP ++ [cd]
         cl_con_vals_SLSQP := h.cl_con_vals_SLSQP ++ [cl - mycl]
         cm_con_vals_SLSQP := h.cm_con_vals_SLSQP ++ [cmv - mycm] },
       Except.ok (Proj.finalDict funcs cd cl cmv,
         if printOK then [Proj.finalDict funcs cd cl cmv] else [])) := by
  simp [objCon, pyGet, hcd, hcl, hcm, dLookup_dSet, finalDict, apGet, ap]

theorem Proj.objCon_err_cd_base (funcs : PyDict) (printOK : Bool) (h : Hist)
    (hcd : dLookup funcs "fc_cd" = none) :
    Proj.objCon funcs printOK h = (h, Except.error "KeyError: fc_cd") := by
  simp [objCon, pyGet, hcd, apGet, ap]

theorem Proj.objCon_err_cl_base (funcs : PyDict) (printOK : Bool) (h : Hist)
    (cd : Val) (hcd : dLookup funcs "fc_cd" = some cd)
    (hcl : dLookup funcs "fc_cl" = none) :
    Proj.objCon funcs printOK h = (h, Except.error "KeyError: fc_cl") := by
  simp [objCon, pyGet, hcd, hcl, dLookup_dSet, apGet, ap]

theorem Proj.objCon_err_cm_base (funcs : PyDict) (printOK : Bool) (h : Hist)
    (cd cl : Val) (hcd : dLookup funcs "fc_cd" = some cd)
    (hcl : dLookup funcs "fc_cl" = some cl)
    (hcm : dLookup funcs "fc_cm" = none) :
    Proj.objCon funcs printOK h = (h, Except.error "KeyError: fc_cm") := by
  simp [objCon, pyGet, hcd, hcl, hcm, dLookup_dSet, apGet, ap]

theorem ComboSLSQP.objCon_run_slsqp (funcs : PyDict) (printOK : Bool) (h : Hist)
    (cd cl cmv : Val)
    (hcd : dLookup funcs "fc_cd" = some cd)
    (hcl : dLookup funcs "fc_cl" = some cl)
    (hcm : dLookup funcs "fc_cm" = some cmv) :
    ComboSLSQP.objCon funcs printOK h =
      ({ obj_vals_SLSQP := h.obj_vals_SLSQP ++ [cd]
         cl_con_vals_SLSQP := h.cl_con_vals_SLSQP ++ [cl - mycl]
         cm_con_vals_SLSQP := h.cm_con_vals_SLSQP ++ [cmv - mycl]
         fc_cd_vals_SLSQP := h.fc_cd_vals_SLSQP ++ [cd] },
       Except.ok (ComboSLSQP.finalDict funcs cd cl cmv,
         if printOK then [ComboSLSQP.finalDict funcs cd cl cmv] else [])) := by
  simp [objCon, pyGet, hcd, hcl, hcm, dLookup_dSet, finalDict, apGet, ap]

theorem ComboSLSQP.objCon_err_cd_slsqp (funcs : PyDict) (printOK : Bool) (h : Hist)
    (hcd : dLookup funcs "fc_cd" = none) :
    ComboSLSQP.objCon funcs printOK h = (h, Except.error "KeyError: fc_cd") := by
  simp [objCon, pyGet, hcd, apGet, ap]

theorem ComboSLSQP.objCon_err_cl_slsqp (funcs : PyDict) (printOK : Bool) (h : Hist)
    (cd : Val) (hcd : dLookup funcs "fc_cd" = some cd)
    (hcl : dLookup funcs "fc_cl" = none) :
    ComboSLSQP.objCon funcs printOK h = (h, Except.error "KeyError: fc_cl") := by
  simp [objCon, pyGet, hcd, hcl, dLookup_dSet, apGet, ap]

theorem ComboSLSQP.objCon_err_cm_slsqp (funcs : PyDict) (printOK : Bool) (h : Hist)
    (cd cl : Val) (hcd : dLookup funcs "fc_cd" = some cd)
    (hcl : dLookup funcs "fc_cl" = some cl)
    (hcm : dLookup funcs "fc_cm" = none) :
    ComboSLSQP.objCon funcs printOK h = (h, Except.error "KeyError: fc_cm") := by
  simp [objCon, pyGet, hcd, hcl, hcm, dLookup_dSet, apGet, ap]

theorem ComboCONMIN.objCon_run_conmin (funcs : PyDict) (printOK : Bool) (h : Hist)
    (cd cl cmv : Val)
    (hcd : dLookup funcs "fc_cd" = some cd)
    (hcl : dLookup funcs "fc_cl" = some cl)
    (hcm : dLookup funcs "fc_cm" = some cmv) :
    ComboCONMIN.objCon funcs printOK h =
      ({ obj_vals_CONMIN := h.obj_vals_CONMIN ++ [cd]
         cl_con_vals_CONMIN := h.cl_con_vals_CONMIN ++ [cl - mycl]
         cm_con_vals_CONMIN := h.cm_con_vals_CONMIN ++ [cmv - mycm]
         fc_cd_vals_CONMIN := h.fc_cd_vals_CONMIN ++ [cd] },
       Except.ok (ComboCONMIN.finalDict funcs cd cl cmv,
         if printOK then [ComboCONMIN.finalDict funcs cd cl cmv] else [])) := by
  simp [objCon, pyGet, hcd, hcl, hcm, dLookup_dSet, finalDict, apGet, ap]

theorem ComboCONMIN.objCon_err_cd_conmin (funcs : PyDict) (printOK : Bool) (h : Hist)
    (hcd : dLookup funcs "fc_cd" = none) :
    ComboCONMIN.objCon funcs printOK h = (h, Except.error "KeyError: fc_cd") := by
  simp [objCon, pyGet, hcd, apGet, ap]

theorem ComboCONMIN.objCon_err_cl_conmin (funcs : PyDict) (printOK : Bool) (h : Hist)
    (cd : Val) (hcd : dLookup funcs "fc_cd" = some cd)
    (hcl : dLookup funcs "fc_cl" = none) :
    ComboCONMIN.objCon funcs printOK h = (h, Except.error "KeyError: fc_cl") := by
  simp [objCon, pyGet, hcd, hcl, dLookup_dSet, apGet, ap]

theorem ComboCONMIN.objCon_err_cm_conmin (funcs : PyDict) (printOK : Bool) (h : Hist)
    (cd cl : Val) (hcd : dLookup funcs "fc_cd" = some cd)
    (hcl : dLookup funcs "fc_cl" = some cl)
    (hcm : dLookup funcs "fc_cm" = none) :
    ComboCONMIN.objCon funcs printOK h = (h, Except.error "KeyError: fc_cm") := by
  simp [objCon, pyGet, hcd, hcl, hcm, dLookup_dSet, apGet, ap]

theorem ComboIPOPT.objCon_run_ipopt (funcs : PyDict) (printOK : Bool) (h : Hist)
    (cd cl cmv : Val)
    (hcd : dLookup funcs "fc_cd" = some cd)
    (hcl : dLookup funcs "fc_cl" = some cl)
    (hcm : dLookup funcs "fc_cm" = some cmv) :
    ComboIPOPT.objCon funcs printOK h =
      ({ obj_vals_IPOPT := h.obj_vals_IPOPT ++ [cd]
         cl_con_vals_IPOPT := h.cl_con_vals_IPOPT ++ [cl - mycl]
         cm_con_vals_IPOPT := h.cm_con_vals_IPOPT ++ [cmv - mycm]
         fc_cd_vals_IPOPT := h.fc_cd_vals_IPOPT ++ [cd] },
       Except.ok (ComboIPOPT.finalDict funcs cd cl cmv,
         if printOK then [ComboIPOPT.finalDict funcs cd cl cmv] else [])) := by
  simp [objCon, pyGet, hcd, hcl, hcm, dLookup_dSet, finalDict, apGet, ap]

theorem ComboIPOPT.objCon_err_cd_ipopt (funcs : PyDict) (printOK : Bool) (h : Hist)
    (hcd : dLookup funcs "fc_cd" = none) :
    ComboIPOPT.objCon funcs printOK h = (h, Except.error "KeyError: fc_cd") := by
  simp [objCon, pyGet, hcd, apGet, ap]

theorem ComboIPOPT.objCon_err_cl_ipopt (funcs : PyDict) (printOK : Bool) (h : Hist)
    (cd : Val) (hcd : dLookup funcs "fc_cd" = some cd)
    (hcl : dLookup funcs "fc_cl" = none) :
    ComboIPOPT.objCon funcs printOK h = (h, Except.error "KeyError: fc_cl") := by
  simp [objCon, pyGet, hcd, hcl, dLookup_dSet, apGet, ap]

theorem ComboIPOPT.objCon_err_cm_ipopt (funcs : PyDict) (printOK : Bool) (h : Hist)
    (cd cl : Val) (hcd : dLookup funcs "fc_cd" = some cd)
    (hcl : dLookup funcs "fc_cl" = some cl)
    (hcm : dLookup funcs "fc_cm" = none) :
    ComboIPOPT.objCon funcs printOK h = (h, Except.error "KeyError: fc_cm") := by
  simp [objCon, pyGet, hcd, hcl, hcm, dLookup_dSet, apGet, ap]

/-!
Lookups into the augmented dictionary shape shared by all four `objCon`
variants, and facts bridging a completed call back to its input keys.
-/

theorem dLookup_final_obj (funcs : PyDict) (a b c : Val) :
    dLookup (dSet (dSet (dSet funcs "obj" a) "cl_con_fc" b) "cm_con_fc" c) "obj"
      = some a := by
  simp [dLookup_dSet]

theorem dLookup_final_clcon (funcs : PyDict) (a b c : Val) :
    dLookup (dSet (dSet (dSet funcs "obj" a) "cl_con_fc" b) "cm_con_fc" c) "cl_con_fc"
      = some b := by
  simp [dLookup_dSet]

theorem dLookup_final_cmcon (funcs : PyDict) (a b c : Val) :
    dLookup (dSet (dSet (dSet funcs "obj" a) "cl_con_fc" b) "cm_con_fc" c) "cm_con_fc"
      = some c := by
  simp [dLookup_dSet]

theorem dLookup_final_other (funcs : PyDict) (a b c : Val) (k : String)
    (h1 : k ≠ "obj") (h2 : k ≠ "cl_con_fc") (h3 : k ≠ "cm_con_fc") :
    dLookup (dSet (dSet (dSet funcs "obj" a) "cl_con_fc" b) "cm_con_fc" c) k
      = dLookup funcs k := by
  rw [dLookup_dSet_ne _ _ _ _ (Ne.symm h3), dLookup_dSet_ne _ _ _ _ (Ne.symm h2),
    dLookup_dSet_ne _ _ _ _ (Ne.symm h1)]

theorem Proj.objCon_keys_of_ok_base (funcs : PyDict) (printOK : Bool) (h : Hist)
    (hok : resultErr (Proj.objCon funcs printOK h) = none) :
    ∃ cd cl cmv, dLookup funcs "fc_cd" = some cd ∧
      dLookup funcs "fc_cl" = some cl ∧ dLookup funcs "fc_cm" = some cmv := by
  cases hcd : dLookup funcs "fc_cd" with
  | none => rw [objCon_err_cd_base funcs printOK h hcd] at hok; simp [resultErr] at hok
  | some cd =>
    cases hcl : dLookup funcs "fc_cl" with
    | none => rw [objCon_err_cl_base funcs printOK h cd hcd hcl] at hok; simp [resultErr] at hok
    | some cl =>
      cases hcm : dLookup funcs "fc_cm" with
      | none => rw [objCon_err_cm_base funcs printOK h cd cl hcd hcl hcm] at hok; simp [resultErr] at hok
      | some cmv => exact ⟨cd, cl, cmv, rfl, rfl, rfl⟩

theorem ComboSLSQP.objCon_keys_of_ok_slsqp (funcs : PyDict) (printOK : Bool) (h : Hist)
    (hok : resultErr (ComboSLSQP.objCon funcs printOK h) = none) :
    ∃ cd cl cmv, dLookup funcs "fc_cd" = some cd ∧
      dLookup funcs "fc_cl" = some cl ∧ dLookup funcs "fc_cm" = some cmv := by
  cases hcd : dLookup funcs "fc_cd" with
  | none => rw [objCon_err_cd_slsqp funcs printOK h hcd] at hok; simp [resultErr] at hok
  | some cd =>
    cases hcl : dLookup funcs "fc_cl" with
    | none => rw [objCon_err_cl_slsqp funcs printOK h cd hcd hcl] at hok; simp [resultErr] at hok
    | some cl =>
      cases hcm : dLookup funcs "fc_cm" with
      | none => rw [objCon_err_cm_slsqp funcs printOK h cd cl hcd hcl hcm] at hok; simp [resultErr] at hok
      | some cmv => exact ⟨cd, cl, cmv, rfl, rfl, rfl⟩

theorem ComboCONMIN.objCon_keys_of_ok_conmin (funcs : PyDict) (printOK : Bool) (h : Hist)
    (hok : resultErr (ComboCONMIN.objCon funcs printOK h) = none) :
    ∃ cd cl cmv, dLookup funcs "fc_cd" = some cd ∧
      dLookup funcs "fc_cl" = some cl ∧ dLookup funcs "fc_cm" = some cmv := by
  cases hcd : dLookup funcs "fc_cd" with
  | none => rw [objCon_err_cd_conmin funcs printOK h hcd] at hok; simp [resultErr] at hok
  | some cd =>
    cases hcl : dLookup funcs "fc_cl" with
    | none => rw [objCon_err_cl_conmin funcs printOK h cd hcd hcl] at hok; simp [resultErr] at hok
    | some cl =>
      cases hcm : dLookup funcs "fc_cm" with
      | none => rw [objCon_err_cm_conmin funcs printOK h cd cl hcd hcl hcm] at hok; simp [resultErr] at hok
      | some cmv => exact ⟨cd, cl, cmv, rfl, rfl, rfl⟩

theorem ComboIPOPT.objCon_keys_of_ok_ipopt (funcs : PyDict) (printOK : Bool) (h : Hist)
    (hok : resultErr (ComboIPOPT.objCon funcs printOK h) = none) :
    ∃ cd cl cmv, dLookup funcs "fc_cd" = some cd ∧
      dLookup funcs "fc_cl" = some cl ∧ dLookup funcs "fc_cm" = some cmv := by
  cases hcd : dLookup funcs "fc_cd" with
  | none => rw [objCon_err_cd_ipopt funcs printOK h hcd] at hok; simp [resultErr] at hok
  | some cd =>
    cases hcl : dLookup funcs "fc_cl" with
    | none => rw [objCon_err_cl_ipopt funcs printOK h cd hcd hcl] at hok; simp [resultErr] at hok
    | some cl =>
      cases hcm : dLookup funcs "fc_cm" with
      | none => rw [objCon_err_cm_ipopt funcs printOK h cd cl hcd hcl hcm] at hok; simp [resultErr] at hok
      | some cmv => exact ⟨cd, cl, cmv, rfl, rfl, rfl⟩

/-!
Growth of the history lists over a sequence of completed calls.
-/

theorem Proj.runSeq_len_base (inputs : List (PyDict × Bool)) :
    ∀ h hf : Hist, runSeq Proj.objCon inputs h = some hf →
      hf.obj_vals_SLSQP.length = h.obj_vals_SLSQP.length + inputs.length ∧
      hf.cl_con_vals_SLSQP.length = h.cl_con_vals_SLSQP.length + inputs.length ∧
      hf.cm_con_vals_SLSQP.length = h.cm_con_vals_SLSQP.length + inputs.length := by
  induction inputs with
  | nil =>
    intro h hf hrun
    simp [runSeq] at hrun
    subst hrun
    simp
  | cons c rest ih =>
    intro h hf hrun
    cases hcd : dLookup c.1 "fc_cd" with
    | none =>
      rw [runSeq, objCon_err_cd_base c.1 c.2 h hcd] at hrun
      simp at hrun
    | some cd =>
      cases hcl : dLookup c.1 "fc_cl" with
      | none =>
        rw [runSeq, objCon_err_cl_base c.1 c.2 h cd hcd hcl] at hrun
        simp at hrun
      | some cl =>
        cases hcm : dLookup c.1 "fc_cm" with
        | none =>
          rw [runSeq, objCon_err_cm_base c.1 c.2 h cd cl hcd hcl hcm] at hrun
          simp at hrun
        | some cmv =>
          rw [runSeq, objCon_run_base c.1 c.2 h cd cl cmv hcd hcl hcm] at hrun
          obtain ⟨e1, e2, e3⟩ := ih _ _ hrun
          refine ⟨?_, ?_, ?_⟩ <;> simp [e1, e2, e3] <;> omega

theorem ComboSLSQP.runSeq_len_slsqp (inputs : List (PyDict × Bool)) :
    ∀ h hf : Hist, runSeq ComboSLSQP.objCon inputs h = some hf →
      hf.obj_vals_SLSQP.length = h.obj_vals_SLSQP.length + inputs.length ∧
      hf.cl_con_vals_SLSQP.length = h.cl_con_vals_SLSQP.length + inputs.length ∧
      hf.cm_con_vals_SLSQP.length = h.cm_con_vals_SLSQP.length + inputs.length ∧
      hf.fc_cd_vals_SLSQP.length = h.fc_cd_vals_SLSQP.length + inputs.length := by
  induction inputs with
  | nil =>
    intro h hf hrun
    simp [runSeq] at hrun
    subst hrun
    simp
  | cons c rest ih =>
    intro h hf hrun
    cases hcd : dLookup c.1 "fc_cd" with
    | none =>
      rw [runSeq, objCon_err_cd_slsqp c.1 c.2 h hcd] at hrun
      simp at hrun
    | some cd =>
      cases hcl : dLookup c.1 "fc_cl" with
      | none =>
        rw [runSeq, objCon_err_cl_slsqp c.1 c.2 h cd hcd hcl] at hrun
        simp at hrun
      | some cl =>
        cases hcm : dLookup c.1 "fc_cm" with
        | none =>
          rw [runSeq, objCon_err_cm_slsqp c.1 c.2 h cd cl hcd hcl hcm] at hrun
          simp at hrun
        | some cmv =>
          rw [runSeq, objCon_run_slsqp c.1 c.2 h cd cl cmv hcd hcl hcm] at hrun
          obtain ⟨e1, e2, e3, e4⟩ := ih _ _ hrun
          refine ⟨?_, ?_, ?_, ?_⟩ <;> simp [e1, e2, e3, e4] <;> omega

theorem ComboCONMIN.runSeq_len_conmin (inputs : List (PyDict × Bool)) :
    ∀ h hf : Hist, runSeq ComboCONMIN.objCon inputs h = some hf →
      hf.obj_vals_CONMIN.length = h.obj_vals_CONMIN.length + inputs.length ∧
      hf.cl_con_vals_CONMIN.length = h.cl_con_vals_CONMIN.length + inputs.length ∧
      hf.cm_con_vals_CONMIN.length = h.cm_con_vals_CONMIN.length + inputs.length ∧
      hf.fc_cd_vals_CONMIN.length = h.fc_cd_vals_CONMIN.length + inputs.length := by
  induction inputs with
  | nil =>
    intro h hf hrun
    simp [runSeq] at hrun
    subst hrun
    simp
  | cons c rest ih =>
    intro h hf hrun
    cases hcd : dLookup c.1 "fc_cd" with
    | none =>
      rw [runSeq, objCon_err_cd_conmin c.1 c.2 h hcd] at hrun
      simp at hrun
    | some cd =>
      cases hcl : dLookup c.1 "fc_cl" with
      | none =>
        rw [runSeq, objCon_err_cl_conmin c.1 c.2 h cd hcd hcl] at hrun
        simp at hrun
      | some cl =>
        cases hcm : dLookup c.1 "fc_cm" with
        | none =>
          rw [runSeq, objCon_err_cm_conmin c.1 c.2 h cd cl hcd hcl hcm] at hrun
          simp at hrun
        | some cmv =>
          rw [runSeq, objCon_run_conmin c.1 c.2 h cd cl cmv hcd hcl hcm] at hrun
          obtain ⟨e1, e2, e3, e4⟩ := ih _ _ hrun
          refine ⟨?_, ?_, ?_, ?_⟩ <;> simp [e1, e2, e3, e4] <;> omega

theorem ComboIPOPT.runSeq_len_ipopt (inputs : List (PyDict × Bool)) :
    ∀ h hf : Hist, runSeq ComboIPOPT.objCon inputs h = some hf →
      hf.obj_vals_IPOPT.length = h.obj_vals_IPOPT.length + inputs.length ∧
      hf.cl_con_vals_IPOPT.length = h.cl_con_vals_IPOPT.length + inputs.length ∧
      hf.cm_con_vals_IPOPT.length = h.cm_con_vals_IPOPT.length + inputs.length ∧
      hf.fc_cd_vals_IPOPT.length = h.fc_cd_vals_IPOPT.length + inputs.length := by
  induction inputs with
  | nil =>
    intro h hf hrun
    simp [runSeq] at hrun
    subst hrun
    simp
  | cons c rest ih =>
    intro h hf hrun
    cases hcd : dLookup c.1 "fc_cd" with
    | none =>
      rw [runSeq, objCon_err_cd_ipopt c.1 c.2 h hcd] at hrun
      simp at hrun
    | some cd =>
      cases hcl : dLookup c.1 "fc_cl" with
      | none =>
        rw [runSeq, objCon_err_cl_ipopt c.1 c.2 h cd hcd hcl] at hrun
        simp at hrun
      | some cl =>
        cases hcm : dLookup c.1 "fc_cm" with
        | none =>
          rw [runSeq, objCon_err_cm_ipopt c.1 c.2 h cd cl hcd hcl hcm] at hrun
          simp at hrun
        | some cmv =>
          rw [runSeq, objCon_run_ipopt c.1 c.2 h cd cl cmv hcd hcl hcm] at hrun
          obtain ⟨e1, e2, e3, e4⟩ := ih _ _ hrun
          refine ⟨?_, ?_, ?_, ?_⟩ <;> simp [e1, e2, e3, e4] <;> omega

/-!
Lookup characterization of the evaluation callbacks.
-/

theorem cruiseFuncs_lookup (ext : Externals) (x : DesignVars) (k : String) :
    dLookup (cruiseFuncs ext x) k =
      lastWrite (ext.dvconEvalWrites x ++ ext.solverEvalWrites x ++
        ext.solutionFailureWrites x) k := by
  simp [cruiseFuncs, dLookup_dSetAll, lastWrite_append, dLookup, optOr_none_right,
    optOr_assoc]

theorem cruiseFuncsSens_ok_dict (ext : Externals) (x : DesignVars)
    (funcs : PyDict) (d : PyDict) (tr : List Val)
    (hok : cruiseFuncsSens ext x funcs = Except.ok (d, tr)) :
    d = sensAsm ext := by
  rw [cruiseFuncsSens] at hok
  rcases h1 : pyGet (sensAsm ext) "fc_cd" with e | p1 <;>
    rw [show dSetAll (dSetAll (dSetAll [] ext.dvconSensWrites) ext.solverSensWrites)
        ext.adjointFailureWrites = sensAsm ext from rfl, h1] at hok
  · cases hok
  · rcases h2 : pyGet (sensAsm ext) "fc_cl" with e | p2 <;> rw [h2] at hok
    · cases hok
    · rcases h3 : pyGet (sensAsm ext) "fc_cm" with e | p3 <;> rw [h3] at hok
      · cases hok
      · rcases h4 : pyGet (sensAsm ext) "fail" with e | p4 <;> rw [h4] at hok
        · cases hok
        · cases hok
          rfl

/-- C1: for every functional dictionary containing entries for the keys
ap["cd"], ap["cl"] and ap["cm"], every `objCon` variant completes, and the
returned dictionary's "obj" entry equals the cd entry while its "cl_con_fc"
entry equals the cl entry minus the configured target lift coefficient
`mycl = 0.5`, in all four variants across both scripts. -/
theorem spec_c1_obj_and_cl_residual (funcs : PyDict) (printOK : Bool)
    (h1 : Proj.Hist) (h2 : ComboSLSQP.Hist) (h3 : ComboCONMIN.Hist)
    (h4 : ComboIPOPT.Hist) (cd cl cmv : Val)
    (hcd : dLookup funcs (apGet ap "cd") = some cd)
    (hcl : dLookup funcs (apGet ap "cl") = some cl)
    (hcm : dLookup funcs (apGet ap "cm") = some cmv) :
    (resultLookup (Proj.objCon funcs printOK h1) "obj" = some cd ∧
     resultLookup (Proj.objCon funcs printOK h1) "cl_con_fc" = some (cl - mycl)) ∧
    (resultLookup (ComboSLSQP.objCon funcs printOK h2) "obj" = some cd ∧
     resultLookup (ComboSLSQP.objCon funcs printOK h2) "cl_con_fc" = some (cl - mycl)) ∧
    (resultLookup (ComboCONMIN.objCon funcs printOK h3) "obj" = some cd ∧
     resultLookup (ComboCONMIN.objCon funcs printOK h3) "cl_con_fc" = some (cl - mycl)) ∧
    (resultLookup (ComboIPOPT.objCon funcs printOK h4) "obj" = some cd ∧
     resultLookup (ComboIPOPT.objCon funcs printOK h4) "cl_con_fc" = some (cl - mycl)) := by
  rw [apGet_cd] at hcd
  rw [apGet_cl] at hcl
  rw [apGet_cm] at hcm
  rw [Proj.objCon_run_base funcs printOK h1 cd cl cmv hcd hcl hcm,
    ComboSLSQP.objCon_run_slsqp funcs printOK h2 cd cl cmv hcd hcl hcm,
    ComboCONMIN.objCon_run_conmin funcs printOK h3 cd cl cmv hcd hcl hcm,
    ComboIPOPT.objCon_run_ipopt funcs printOK h4 cd cl cmv hcd hcl hcm]
  simp [resultLookup, Proj.finalDict, ComboSLSQP.finalDict, ComboCONMIN.finalDict,
    ComboIPOPT.finalDict, dLookup_final_obj, dLookup_final_clcon]

/-- Witness for C1 at a concrete functional dictionary. -/
theorem spec_c1_witness :
    resultLookup (Proj.objCon funcsEx true Proj.hist0) "obj" = some (1 / 50) ∧
    resultLookup (ComboIPOPT.objCon funcsEx true ComboIPOPT.hist0) "cl_con_fc"
      = some (3 / 5 - mycl) := by
  have h := spec_c1_obj_and_cl_residual funcsEx true Proj.hist0 ComboSLSQP.hist0
    ComboCONMIN.hist0 ComboIPOPT.hist0 (1 / 50) (3 / 5) (1 / 10) rfl rfl rfl
  exact ⟨h.1.1, h.2.2.2.2⟩

/-- C2: refuted in one section: at a functional dictionary with moment
coefficient 0.1, the SLSQP-section `objCon` of the COMBO script computes
the moment residual as cm − mycl = −0.4, while the other three variants
(and the claim) give cm − mycm = 0.07. -/
theorem spec_c2_cm_residual_slsqp_bug :
    resultLookup (ComboSLSQP.objCon funcsEx false ComboSLSQP.hist0) "cm_con_fc"
      = some (1 / 10 - mycl) ∧
    resultLookup (Proj.objCon funcsEx false Proj.hist0) "cm_con_fc"
      = some (1 / 10 - mycm) ∧
    resultLookup (ComboCONMIN.objCon funcsEx false ComboCONMIN.hist0) "cm_con_fc"
      = some (1 / 10 - mycm) ∧
    resultLookup (ComboIPOPT.objCon funcsEx false ComboIPOPT.hist0) "cm_con_fc"
      = some (1 / 10 - mycm) ∧
    ((1 : Val) / 10 - mycl = -(2 / 5)) ∧
    ((1 : Val) / 10 - mycm = 7 / 100) ∧
    ((1 : Val) / 10 - mycl ≠ 1 / 10 - mycm) := by
  refine ⟨?_, ?_, ?_, ?_, by norm_num [mycl], by norm_num [mycm], by norm_num [mycl, mycm]⟩
  · rw [ComboSLSQP.objCon_run_slsqp funcsEx false ComboSLSQP.hist0 (1 / 50) (3 / 5) (1 / 10)
      rfl rfl rfl]
    simp [resultLookup, ComboSLSQP.finalDict, dLookup_final_cmcon]
  · rw [Proj.objCon_run_base funcsEx false Proj.hist0 (1 / 50) (3 / 5) (1 / 10) rfl rfl rfl]
    simp [resultLookup, Proj.finalDict, dLookup_final_cmcon]
  · rw [ComboCONMIN.objCon_run_conmin funcsEx false ComboCONMIN.hist0 (1 / 50) (3 / 5) (1 / 10)
      rfl rfl rfl]
    simp [resultLookup, ComboCONMIN.finalDict, dLookup_final_cmcon]
  · rw [ComboIPOPT.objCon_run_ipopt funcsEx false ComboIPOPT.hist0 (1 / 50) (3 / 5) (1 / 10)
      rfl rfl rfl]
    simp [resultLookup, ComboIPOPT.finalDict, dLookup_final_cmcon]

theorem runSeq_cons {B : Type}
    (step : PyDict → Bool → B → B × Except String (PyDict × List PyDict))
    (c : PyDict × Bool) (rest : List (PyDict × Bool)) (b bn : B)
    (r : PyDict × List PyDict) (hstep : step c.1 c.2 b = (bn, Except.ok r)) :
    runSeq step (c :: rest) b = runSeq step rest bn := by
  rw [runSeq, hstep]

/-- C3: every completed `objCon` call appends exactly one value to each of
its variant's history buffers, and a sequence of n completed calls starting
from the initial empty buffers leaves every buffer of that variant with
length n (hence all buffers of equal length). -/
theorem spec_c3_history_buffers :
    (∀ funcs printOK (h : Proj.Hist),
      resultErr (Proj.objCon funcs printOK h) = none →
        (Proj.objCon funcs printOK h).1.obj_vals_SLSQP.length
            = h.obj_vals_SLSQP.length + 1 ∧
        (Proj.objCon funcs printOK h).1.cl_con_vals_SLSQP.length
            = h.cl_con_vals_SLSQP.length + 1 ∧
        (Proj.objCon funcs printOK h).1.cm_con_vals_SLSQP.length
            = h.cm_con_vals_SLSQP.length + 1) ∧
    (∀ funcs printOK (h : ComboSLSQP.Hist),
      resultErr (ComboSLSQP.objCon funcs printOK h) = none →
        (ComboSLSQP.objCon funcs printOK h).1.obj_vals_SLSQP.length
            = h.obj_vals_SLSQP.length + 1 ∧
        (ComboSLSQP.objCon funcs printOK h).1.cl_con_vals_SLSQP.length
            = h.cl_con_vals_SLSQP.length + 1 ∧
        (ComboSLSQP.objCon funcs printOK h).1.cm_con_vals_SLSQP.length
            = h.cm_con_vals_SLSQP.length + 1 ∧
        (ComboSLSQP.objCon funcs printOK h).1.fc_cd_vals_SLSQP.length
            = h.fc_cd_vals_SLSQP.length + 1) ∧
    (∀ funcs printOK (h : ComboCONMIN.Hist),
      resultErr (ComboCONMIN.objCon funcs printOK h) = none →
        (ComboCONMIN.objCon funcs printOK h).1.obj_vals_CONMIN.length
            = h.obj_vals_CONMIN.length + 1 ∧
        (ComboCONMIN.objCon funcs printOK h).1.cl_con_vals_CONMIN.length
            = h.cl_con_vals_CONMIN.length + 1 ∧
        (ComboCONMIN.objCon funcs printOK h).1.cm_con_vals_CONMIN.length
            = h.cm_con_vals_CONMIN.length + 1 ∧
        (ComboCONMIN.objCon funcs printOK h).1.fc_cd_vals_CONMIN.length
            = h.fc_cd_vals_CONMIN.length + 1) ∧
    (∀ funcs printOK (h : ComboIPOPT.Hist),
      resultErr (ComboIPOPT.objCon funcs printOK h) = none →
        (ComboIPOPT.objCon funcs printOK h).1.obj_vals_IPOPT.length
            = h.obj_vals_IPOPT.length + 1 ∧
        (ComboIPOPT.objCon funcs printOK h).1.cl_con_vals_IPOPT.length
            = h.cl_con_vals_IPOPT.length + 1 ∧
        (ComboIPOPT.objCon funcs printOK h).1.cm_con_vals_IPOPT.length
            = h.cm_con_vals_IPOPT.length + 1 ∧
        (ComboIPOPT.objCon funcs printOK h).1.fc_cd_vals_IPOPT.length
            = h.fc_cd_vals_IPOPT.length + 1) ∧
    (∀ (inputs : List (PyDict × Bool)) (hf : Proj.Hist),
      runSeq Proj.objCon inputs Proj.hist0 = some hf →
        hf.obj_vals_SLSQP.length = inputs.length ∧
        hf.cl_con_vals_SLSQP.length = inputs.length ∧
        hf.cm_con_vals_SLSQP.length = inputs.length) ∧
    (∀ (inputs : List (PyDict × Bool)) (hf : ComboSLSQP.Hist),
      runSeq ComboSLSQP.objCon inputs ComboSLSQP.hist0 = some hf →
        hf.obj_vals_SLSQP.length = inputs.length ∧
        hf.cl_con_vals_SLSQP.length = inputs.length ∧
        hf.cm_con_vals_SLSQP.length = inputs.length ∧
        hf.fc_cd_vals_SLSQP.length = inputs.length) ∧
    (∀ (inputs : List (PyDict × Bool)) (hf : ComboCONMIN.Hist),
      runSeq ComboCONMIN.objCon inputs ComboCONMIN.hist0 = some hf →
        hf.obj_vals_CONMIN.length = inputs.length ∧
        hf.cl_con_vals_CONMIN.length = inputs.length ∧
        hf.cm_con_vals_CONMIN.length = inputs.length ∧
        hf.fc_cd_vals_CONMIN.length = inputs.length) ∧
    (∀ (inputs : List (PyDict × Bool)) (hf : ComboIPOPT.Hist),
      runSeq ComboIPOPT.objCon inputs ComboIPOPT.hist0 = some hf →
        hf.obj_vals_IPOPT.length = inputs.length ∧
        hf.cl_con_vals_IPOPT.length = inputs.length ∧
        hf.cm_con_vals_IPOPT.length = inputs.length ∧
        hf.fc_cd_vals_IPOPT.length = inputs.length) := by
  refine ⟨?_, ?_, ?_, ?_, ?_, ?_, ?_, ?_⟩
  · intro funcs printOK h hok
    obtain ⟨cd, cl, cmv, hcd, hcl, hcm⟩ := Proj.objCon_keys_of_ok_base funcs printOK h hok
    rw [Proj.objCon_run_base funcs printOK h cd cl cmv hcd hcl hcm]
    simp
  · intro funcs printOK h hok
    obtain ⟨cd, cl, cmv, hcd, hcl, hcm⟩ := ComboSLSQP.objCon_keys_of_ok_slsqp funcs printOK h hok
    rw [ComboSLSQP.objCon_run_slsqp funcs printOK h cd cl cmv hcd hcl hcm]
    simp
  · intro funcs printOK h hok
    obtain ⟨cd, cl, cmv, hcd, hcl, hcm⟩ := ComboCONMIN.objCon_keys_of_ok_conmin funcs printOK h hok
    rw [ComboCONMIN.objCon_run_conmin funcs printOK h cd cl cmv hcd hcl hcm]
    simp
  · intro funcs printOK h hok
    obtain ⟨cd, cl, cmv, hcd, hcl, hcm⟩ := ComboIPOPT.objCon_keys_of_ok_ipopt funcs printOK h hok
    rw [ComboIPOPT.objCon_run_ipopt funcs printOK h cd cl cmv hcd hcl hcm]
    simp
  · intro inputs hf hrun
    obtain ⟨e1, e2, e3⟩ := Proj.runSeq_len_base inputs Proj.hist0 hf hrun
    simp [Proj.hist0] at e1 e2 e3
    exact ⟨e1, e2, e3⟩
  · intro inputs hf hrun
    obtain ⟨e1, e2, e3, e4⟩ := ComboSLSQP.runSeq_len_slsqp inputs ComboSLSQP.hist0 hf hrun
    simp [ComboSLSQP.hist0] at e1 e2 e3 e4
    exact ⟨e1, e2, e3, e4⟩
  · intro inputs hf hrun
    obtain ⟨e1, e2, e3, e4⟩ := ComboCONMIN.runSeq_len_conmin inputs ComboCONMIN.hist0 hf hrun
    simp [ComboCONMIN.hist0] at e1 e2 e3 e4
    exact ⟨e1, e2, e3, e4⟩
  · intro inputs hf hrun
    obtain ⟨e1, e2, e3, e4⟩ := ComboIPOPT.runSeq_len_ipopt inputs ComboIPOPT.hist0 hf hrun
    simp [ComboIPOPT.hist0] at e1 e2 e3 e4
    exact ⟨e1, e2, e3, e4⟩

/-- Witness for C3: one concrete completed call, and a concrete completed
one-call sequence, in each variant. -/
theorem spec_c3_witness :
    ((Proj.objCon funcsEx true Proj.hist0).1.obj_vals_SLSQP.length
        = Proj.hist0.obj_vals_SLSQP.length + 1 ∧
     (Proj.objCon funcsEx true Proj.hist0).1.cl_con_vals_SLSQP.length
        = Proj.hist0.cl_con_vals_SLSQP.length + 1 ∧
     (Proj.objCon funcsEx true Proj.hist0).1.cm_con_vals_SLSQP.length
        = Proj.hist0.cm_con_vals_SLSQP.length + 1) ∧
    ((ComboSLSQP.objCon funcsEx true ComboSLSQP.hist0).1.obj_vals_SLSQP.length
        = ComboSLSQP.hist0.obj_vals_SLSQP.length + 1 ∧
     (ComboSLSQP.objCon funcsEx true ComboSLSQP.hist0).1.cl_con_vals_SLSQP.length
        = ComboSLSQP.hist0.cl_con_vals_SLSQP.length + 1 ∧
     (ComboSLSQP.objCon funcsEx true ComboSLSQP.hist0).1.cm_con_vals_SLSQP.length
        = ComboSLSQP.hist0.cm_con_vals_SLSQP.length + 1 ∧
     (ComboSLSQP.objCon funcsEx true ComboSLSQP.hist0).1.fc_cd_vals_SLSQP.length
        = ComboSLSQP.hist0.fc_cd_vals_SLSQP.length + 1) ∧
    ((ComboCONMIN.objCon funcsEx true ComboCONMIN.hist0).1.obj_vals_CONMIN.length
        = ComboCONMIN.hist0.obj_vals_CONMIN.length + 1 ∧
     (ComboCONMIN.objCon funcsEx true ComboCONMIN.hist0).1.cl_con_vals_CONMIN.length
        = ComboCONMIN.hist0.cl_con_vals_CONMIN.length + 1 ∧
     (ComboCONMIN.objCon funcsEx true ComboCONMIN.hist0).1.cm_con_vals_CONMIN.length
        = ComboCONMIN.hist0.cm_con_vals_CONMIN.length + 1 ∧
     (ComboCONMIN.objCon funcsEx true ComboCONMIN.hist0).1.fc_cd_vals_CONMIN.length
        = ComboCONMIN.hist0.fc_cd_vals_CONMIN.length + 1) ∧
    ((ComboIPOPT.objCon funcsEx true ComboIPOPT.hist0).1.obj_vals_IPOPT.length
        = ComboIPOPT.hist0.obj_vals_IPOPT.length + 1 ∧
     (ComboIPOPT.objCon funcsEx true ComboIPOPT.hist0).1.cl_con_vals_IPOPT.length
        = ComboIPOPT.hist0.cl_con_vals_IPOPT.length + 1 ∧
     (ComboIPOPT.objCon funcsEx true ComboIPOPT.hist0).1.cm_con_vals_IPOPT.length
        = ComboIPOPT.hist0.cm_con_vals_IPOPT.length + 1 ∧
     (ComboIPOPT.objCon funcsEx true ComboIPOPT.hist0).1.fc_cd_vals_IPOPT.length
        = ComboIPOPT.hist0.fc_cd_vals_IPOPT.length + 1) ∧
    ((⟨[1 / 50], [3 / 5 - mycl], [1 / 10 - mycm]⟩ : Proj.Hist).obj_vals_SLSQP.length
        = [(funcsEx, true)].length ∧
     (⟨[1 / 50], [3 / 5 - mycl], [1 / 10 - mycm]⟩ : Proj.Hist).cl_con_vals_SLSQP.length
        = [(funcsEx, true)].length ∧
     (⟨[1 / 50], [3 / 5 - mycl], [1 / 10 - mycm]⟩ : Proj.Hist).cm_con_vals_SLSQP.length
        = [(funcsEx, true)].length) ∧
    ((⟨[1 / 50], [3 / 5 - mycl], [1 / 10 - mycl], [1 / 50]⟩ : ComboSLSQP.Hist).obj_vals_SLSQP.length
        = [(funcsEx, true)].length ∧
     (⟨[1 / 50], [3 / 5 - mycl], [1 / 10 - mycl], [1 / 50]⟩ : ComboSLSQP.Hist).cl_con_vals_SLSQP.length
        = [(funcsEx, true)].length ∧
     (⟨[1 / 50], [3 / 5 - mycl], [1 / 10 - mycl], [1 / 50]⟩ : ComboSLSQP.Hist).cm_con_vals_SLSQP.length
        = [(funcsEx, true)].length ∧
     (⟨[1 / 50], [3 / 5 - mycl], [1 / 10 - mycl], [1 / 50]⟩ : ComboSLSQP.Hist).fc_cd_vals_SLSQP.length
        = [(funcsEx, true)].length) ∧
    ((⟨[1 / 50], [3 / 5 - mycl], [1 / 10 - mycm], [1 / 50]⟩ : ComboCONMIN.Hist).obj_vals_CONMIN.length
        = [(funcsEx, true)].length ∧
     (⟨[1 / 50], [3 / 5 - mycl], [1 / 10 - mycm], [1 / 50]⟩ : ComboCONMIN.Hist).cl_con_vals_CONMIN.length
        = [(funcsEx, true)].length ∧
     (⟨[1 / 50], [3 / 5 - mycl], [1 / 10 - mycm], [1 / 50]⟩ : ComboCONMIN.Hist).cm_con_vals_CONMIN.length
        = [(funcsEx, true)].length ∧
     (⟨[1 / 50], [3 / 5 - mycl], [1 / 10 - mycm], [1 / 50]⟩ : ComboCONMIN.Hist).fc_cd_vals_CONMIN.length
        = [(funcsEx, true)].length) ∧
    ((⟨[1 / 50], [3 / 5 - mycl], [1 / 10 - mycm], [1 / 50]⟩ : ComboIPOPT.Hist).obj_vals_IPOPT.length
        = [(funcsEx, true)].length ∧
     (⟨[1 / 50], [3 / 5 - mycl], [1 / 10 - mycm], [1 / 50]⟩ : ComboIPOPT.Hist).cl_con_vals_IPOPT.length
        = [(funcsEx, true)].length ∧
     (⟨[1 / 50], [3 / 5 - mycl], [1 / 10 - mycm], [1 / 50]⟩ : ComboIPOPT.Hist).cm_con_vals_IPOPT.length
        = [(funcsEx, true)].length ∧
     (⟨[1 / 50], [3 / 5 - mycl], [1 / 10 - mycm], [1 / 50]⟩ : ComboIPOPT.Hist).fc_cd_vals_IPOPT.length
        = [(funcsEx, true)].length) := by
  have hP : resultErr (Proj.objCon funcsEx true Proj.hist0) = none := by
    rw [Proj.objCon_run_base funcsEx true Proj.hist0 (1 / 50) (3 / 5) (1 / 10) rfl rfl rfl]
    rfl
  have hS : resultErr (ComboSLSQP.objCon funcsEx true ComboSLSQP.hist0) = none := by
    rw [ComboSLSQP.objCon_run_slsqp funcsEx true ComboSLSQP.hist0 (1 / 50) (3 / 5) (1 / 10)
      rfl rfl rfl]
    rfl
  have hC : resultErr (ComboCONMIN.objCon funcsEx true ComboCONMIN.hist0) = none := by
    rw [ComboCONMIN.objCon_run_conmin funcsEx true ComboCONMIN.hist0 (1 / 50) (3 / 5) (1 / 10)
      rfl rfl rfl]
    rfl
  have hI : resultErr (ComboIPOPT.objCon funcsEx true ComboIPOPT.hist0) = none := by
    rw [ComboIPOPT.objCon_run_ipopt funcsEx true ComboIPOPT.hist0 (1 / 50) (3 / 5) (1 / 10)
      rfl rfl rfl]
    rfl
  have hrP : runSeq Proj.objCon [(funcsEx, true)] Proj.hist0
      = some ⟨[1 / 50], [3 / 5 - mycl], [1 / 10 - mycm]⟩ := by
    rw [runSeq_cons Proj.objCon (funcsEx, true) [] Proj.hist0 _ _
      (Proj.objCon_run_base funcsEx true Proj.hist0 (1 / 50) (3 / 5) (1 / 10) rfl rfl rfl)]
    simp [runSeq, Proj.hist0]
  have hrS : runSeq ComboSLSQP.objCon [(funcsEx, true)] ComboSLSQP.hist0
      = some ⟨[1 / 50], [3 / 5 - mycl], [1 / 10 - mycl], [1 / 50]⟩ := by
    rw [runSeq_cons ComboSLSQP.objCon (funcsEx, true) [] ComboSLSQP.hist0 _ _
      (ComboSLSQP.objCon_run_slsqp funcsEx true ComboSLSQP.hist0 (1 / 50) (3 / 5) (1 / 10)
        rfl rfl rfl)]
    simp [runSeq, ComboSLSQP.hist0]
  have hrC : runSeq ComboCONMIN.objCon [(funcsEx, true)] ComboCONMIN.hist0
      = some ⟨[1 / 50], [3 / 5 - mycl], [1 / 10 - mycm], [1 / 50]⟩ := by
    rw [runSeq_cons ComboCONMIN.objCon (funcsEx, true) [] ComboCONMIN.hist0 _ _
      (ComboCONMIN.objCon_run_conmin funcsEx true ComboCONMIN.hist0 (1 / 50) (3 / 5) (1 / 10)
        rfl rfl rfl)]
    simp [runSeq, ComboCONMIN.hist0]
  have hrI : runSeq ComboIPOPT.objCon [(funcsEx, true)] ComboIPOPT.hist0
      = some ⟨[1 / 50], [3 / 5 - mycl], [1 / 10 - mycm], [1 / 50]⟩ := by
    rw [runSeq_cons ComboIPOPT.objCon (funcsEx, true) [] ComboIPOPT.hist0 _ _
      (ComboIPOPT.objCon_run_ipopt funcsEx true ComboIPOPT.hist0 (1 / 50) (3 / 5) (1 / 10)
        rfl rfl rfl)]
    simp [runSeq, ComboIPOPT.hist0]
  exact ⟨spec_c3_history_buffers.1 funcsEx true Proj.hist0 hP,
    spec_c3_history_buffers.2.1 funcsEx true ComboSLSQP.hist0 hS,
    spec_c3_history_buffers.2.2.1 funcsEx true ComboCONMIN.hist0 hC,
    spec_c3_history_buffers.2.2.2.1 funcsEx true ComboIPOPT.hist0 hI,
    spec_c3_history_buffers.2.2.2.2.1 [(funcsEx, true)] _ hrP,
    spec_c3_history_buffers.2.2.2.2.2.1 [(funcsEx, true)] _ hrS,
    spec_c3_history_buffers.2.2.2.2.2.2.1 [(funcsEx, true)] _ hrC,
    spec_c3_history_buffers.2.2.2.2.2.2.2 [(funcsEx, true)] _ hrI⟩

theorem dot_jac (v : List Val) (hv : v.length = nCoeff) : dot jac v = v.headD 0 := by
  rcases v with _ | ⟨a, _ | ⟨b, _ | ⟨c, _ | ⟨d, _ | ⟨e, v⟩⟩⟩⟩⟩ <;>
    simp [nCoeff] at hv <;> simp [jac, dot, nCoeff]

/-- C4: the hand-built linear constraint "first_cst_coeff_match" has
Jacobian row [1, 0, 0, 0] (a single 1.0 in the first of nCoeff columns)
applied to both the upper_shape and lower_shape groups, its bounds are
both 0.0, and its value on coefficient vectors u and l of length nCoeff
is u[0] + l[0]. -/
theorem spec_c4_first_cst_coeff_match (u l : List Val)
    (hu : u.length = nCoeff) (hl : l.length = nCoeff) :
    evalLinearCon first_cst_coeff_match
        [("upper_shape", u), ("lower_shape", l)] = u.headD 0 + l.headD 0 ∧
    first_cst_coeff_match.lower = 0 ∧
    first_cst_coeff_match.upper = 0 ∧
    jac = [1, 0, 0, 0] ∧
    first_cst_coeff_match.rows = [("upper_shape", jac), ("lower_shape", jac)] := by
  refine ⟨?_, rfl, rfl, rfl, rfl⟩
  simp [evalLinearCon, first_cst_coeff_match, List.find?, dot_jac u hu, dot_jac l hl]

/-- Witness for C4 at concrete coefficient vectors of length nCoeff. -/
theorem spec_c4_witness :
    evalLinearCon first_cst_coeff_match
        [("upper_shape", [1, 2, 3, 4]), ("lower_shape", [-1, 5, 6, 7])]
      = ([1, 2, 3, 4] : List Val).headD 0 + ([-1, 5, 6, 7] : List Val).headD 0 ∧
    first_cst_coeff_match.lower = 0 ∧
    first_cst_coeff_match.upper = 0 ∧
    jac = [1, 0, 0, 0] ∧
    first_cst_coeff_match.rows = [("upper_shape", jac), ("lower_shape", jac)] :=
  spec_c4_first_cst_coeff_match [1, 2, 3, 4] [-1, 5, 6, 7] rfl rfl

/-- C5 counterexample: an input dictionary that already contains an "obj"
entry (value 99) is not returned with that pair unchanged: objCon
overwrites "obj" with the drag entry (here 1). -/
theorem spec_c5_counterexample :
    dLookup funcsEx3 "obj" = some 99 ∧
    resultLookup (Proj.objCon funcsEx3 false Proj.hist0) "obj" = some 1 ∧
    (99 : Val) ≠ 1 := by
  refine ⟨rfl, ?_, by norm_num⟩
  rw [Proj.objCon_run_base funcsEx3 false Proj.hist0 1 2 3 rfl rfl rfl]
  simp [resultLookup, Proj.finalDict, dLookup_final_obj]

/-- C5 (amended): objCon only augments the dictionary apart from the three
entries it writes: every input pair whose key is none of "obj",
"cl_con_fc", "cm_con_fc" is present unchanged in the returned dictionary,
and no other key is added or changed, in the base script and in the COMBO
SLSQP section. -/
theorem spec_c5_frame (funcs : PyDict) (printOK : Bool) (k : String)
    (h1 : Proj.Hist) (h2 : ComboSLSQP.Hist)
    (hk1 : k ≠ "obj") (hk2 : k ≠ "cl_con_fc") (hk3 : k ≠ "cm_con_fc") :
    (resultErr (Proj.objCon funcs printOK h1) = none →
      resultLookup (Proj.objCon funcs printOK h1) k = dLookup funcs k) ∧
    (resultErr (ComboSLSQP.objCon funcs printOK h2) = none →
      resultLookup (ComboSLSQP.objCon funcs printOK h2) k = dLookup funcs k) := by
  constructor
  · intro hok
    obtain ⟨cd, cl, cmv, hcd, hcl, hcm⟩ := Proj.objCon_keys_of_ok_base funcs printOK h1 hok
    rw [Proj.objCon_run_base funcs printOK h1 cd cl cmv hcd hcl hcm]
    have := dLookup_final_other funcs cd (cl - mycl) (cmv - mycm) k hk1 hk2 hk3
    simpa [resultLookup, Proj.finalDict] using this
  · intro hok
    obtain ⟨cd, cl, cmv, hcd, hcl, hcm⟩ := ComboSLSQP.objCon_keys_of_ok_slsqp funcs printOK h2 hok
    rw [ComboSLSQP.objCon_run_slsqp funcs printOK h2 cd cl cmv hcd hcl hcm]
    have := dLookup_final_other funcs cd (cl - mycl) (cmv - mycl) k hk1 hk2 hk3
    simpa [resultLookup, ComboSLSQP.finalDict] using this

/-- Witness for C5 at a dictionary carrying an extra geometric entry. -/
theorem spec_c5_witness :
    resultLookup (Proj.objCon funcsEx2 false Proj.hist0) "DVCon1_volume_constraint_0"
      = dLookup funcsEx2 "DVCon1_volume_constraint_0" ∧
    resultLookup (ComboSLSQP.objCon funcsEx2 false ComboSLSQP.hist0)
        "DVCon1_volume_constraint_0"
      = dLookup funcsEx2 "DVCon1_volume_constraint_0" := by
  have hP : resultErr (Proj.objCon funcsEx2 false Proj.hist0) = none := by
    rw [Proj.objCon_run_base funcsEx2 false Proj.hist0 (1 / 50) (3 / 5) (1 / 10) rfl rfl rfl]
    rfl
  have hS : resultErr (ComboSLSQP.objCon funcsEx2 false ComboSLSQP.hist0) = none := by
    rw [ComboSLSQP.objCon_run_slsqp funcsEx2 false ComboSLSQP.hist0 (1 / 50) (3 / 5) (1 / 10)
      rfl rfl rfl]
    rfl
  have h := spec_c5_frame funcsEx2 false "DVCon1_volume_constraint_0" Proj.hist0
    ComboSLSQP.hist0 (by decide) (by decide) (by decide)
  exact ⟨h.1 hP, h.2 hS⟩

/-- C6: the printOK argument of objCon influences only the debug print:
for both scripts, runs with printOK true and false produce the same
history state, the same returned dictionary, and the same error status. -/
theorem spec_c6_printOK_only_prints (funcs : PyDict)
    (h1 : Proj.Hist) (h2 : ComboSLSQP.Hist) :
    ((Proj.objCon funcs true h1).1 = (Proj.objCon funcs false h1).1 ∧
     resultDict (Proj.objCon funcs true h1) = resultDict (Proj.objCon funcs false h1) ∧
     resultErr (Proj.objCon funcs true h1) = resultErr (Proj.objCon funcs false h1)) ∧
    ((ComboSLSQP.objCon funcs true h2).1 = (ComboSLSQP.objCon funcs false h2).1 ∧
     resultDict (ComboSLSQP.objCon funcs true h2)
        = resultDict (ComboSLSQP.objCon funcs false h2) ∧
     resultErr (ComboSLSQP.objCon funcs true h2)
        = resultErr (ComboSLSQP.objCon funcs false h2)) := by
  constructor
  · cases hcd : dLookup funcs "fc_cd" with
    | none =>
      rw [Proj.objCon_err_cd_base funcs true h1 hcd, Proj.objCon_err_cd_base funcs false h1 hcd]
      exact ⟨rfl, rfl, rfl⟩
    | some cd =>
      cases hcl : dLookup funcs "fc_cl" with
      | none =>
        rw [Proj.objCon_err_cl_base funcs true h1 cd hcd hcl,
          Proj.objCon_err_cl_base funcs false h1 cd hcd hcl]
        exact ⟨rfl, rfl, rfl⟩
      | some cl =>
        cases hcm : dLookup funcs "fc_cm" with
        | none =>
          rw [Proj.objCon_err_cm_base funcs true h1 cd cl hcd hcl hcm,
            Proj.objCon_err_cm_base funcs false h1 cd cl hcd hcl hcm]
          exact ⟨rfl, rfl, rfl⟩
        | some cmv =>
          rw [Proj.objCon_run_base funcs true h1 cd cl cmv hcd hcl hcm,
            Proj.objCon_run_base funcs false h1 cd cl cmv hcd hcl hcm]
          exact ⟨rfl, rfl, rfl⟩
  · cases hcd : dLookup funcs "fc_cd" with
    | none =>
      rw [ComboSLSQP.objCon_err_cd_slsqp funcs true h2 hcd,
        ComboSLSQP.objCon_err_cd_slsqp funcs false h2 hcd]
      exact ⟨rfl, rfl, rfl⟩
    | some cd =>
      cases hcl : dLookup funcs "fc_cl" with
      | none =>
        rw [ComboSLSQP.objCon_err_cl_slsqp funcs true h2 cd hcd hcl,
          ComboSLSQP.objCon_err_cl_slsqp funcs false h2 cd hcd hcl]
        exact ⟨rfl, rfl, rfl⟩
      | some cl =>
        cases hcm : dLookup funcs "fc_cm" with
        | none =>
          rw [ComboSLSQP.objCon_err_cm_slsqp funcs true h2 cd cl hcd hcl hcm,
            ComboSLSQP.objCon_err_cm_slsqp funcs false h2 cd cl hcd hcl hcm]
          exact ⟨rfl, rfl, rfl⟩
        | some cmv =>
          rw [ComboSLSQP.objCon_run_slsqp funcs true h2 cd cl cmv hcd hcl hcm,
            ComboSLSQP.objCon_run_slsqp funcs false h2 cd cl cmv hcd hcl hcm]
          exact ⟨rfl, rfl, rfl⟩

/-- C7: the callbacks forward the solver failure flags unmodified.  First:
whatever "fail" entry checkSolutionFailure last writes is the "fail" entry
of the dictionary cruiseFuncs returns.  Second: whatever "fail" entry
checkAdjointFailure last writes is the "fail" entry of the dictionary
cruiseFuncsSens returns whenever it returns.  Third: cruiseFuncs performs
no branching or recovery on the flag: every non-"fail" entry of its result
is unchanged when only the failure check's "fail" writes differ. -/
theorem spec_c7_fail_flag_forwarding :
    (∀ (ext : Externals) (x : DesignVars) (b : Val),
      lastWrite (ext.solutionFailureWrites x) "fail" = some b →
      dLookup (cruiseFuncs ext x) "fail" = some b) ∧
    (∀ (ext : Externals) (x : DesignVars) (funcs : PyDict) (b : Val)
        (d : PyDict) (tr : List Val),
      lastWrite ext.adjointFailureWrites "fail" = some b →
      cruiseFuncsSens ext x funcs = Except.ok (d, tr) →
      dLookup d "fail" = some b) ∧
    (∀ (ext1 ext2 : Externals) (x : DesignVars) (k : String),
      ext1.dvconEvalWrites x = ext2.dvconEvalWrites x →
      ext1.solverEvalWrites x = ext2.solverEvalWrites x →
      (∀ k2, k2 ≠ "fail" →
        lastWrite (ext1.solutionFailureWrites x) k2
          = lastWrite (ext2.solutionFailureWrites x) k2) →
      k ≠ "fail" →
      dLookup (cruiseFuncs ext1 x) k = dLookup (cruiseFuncs ext2 x) k) := by
  refine ⟨?_, ?_, ?_⟩
  · intro ext x b hb
    rw [cruiseFuncs_lookup, lastWrite_append, hb]
    rfl
  · intro ext x funcs b d tr hb hok
    rw [cruiseFuncsSens_ok_dict ext x funcs d tr hok]
    simp [sensAsm, dLookup_dSetAll, hb, optOr]
  · intro ext1 ext2 x k hdv hsv hfw hk
    rw [cruiseFuncs_lookup, cruiseFuncs_lookup, lastWrite_append, lastWrite_append,
      lastWrite_append, lastWrite_append, hdv, hsv, hfw k hk]

/-- Witness for C7 at the sample externals. -/
theorem spec_c7_witness :
    dLookup (cruiseFuncs extEx []) "fail" = some 0 ∧
    dLookup (sensAsm extEx) "fail" = some 0 ∧
    dLookup (cruiseFuncs extEx []) "fc_cd" = dLookup (cruiseFuncs extEx []) "fc_cd" :=
  ⟨spec_c7_fail_flag_forwarding.1 extEx [] 0 rfl,
   spec_c7_fail_flag_forwarding.2.1 extEx [] [] 0 (sensAsm extEx) [5, 6, 7, 0] rfl rfl,
   spec_c7_fail_flag_forwarding.2.2 extEx extEx [] "fc_cd" rfl rfl
     (fun k2 h => rfl) (by decide)⟩

/-- C8: the dictionary cruiseFuncs returns is rebuilt from an empty
dictionary on every call: each entry of its result under any key is
exactly the last value written under that key by DVCon.evalFunctions,
CFDSolver.evalFunctions and CFDSolver.checkSolutionFailure during that
invocation, and a key none of them writes is absent. -/
theorem spec_c8_funcs_rebuilt_fresh (ext : Externals) (x : DesignVars)
    (k : String) :
    dLookup (cruiseFuncs ext x) k =
      lastWrite (ext.dvconEvalWrites x ++ ext.solverEvalWrites x ++
        ext.solutionFailureWrites x) k :=
  cruiseFuncs_lookup ext x k

/-- C9: cruiseFuncsSens reads neither of its two parameters: its result is
the same function of the global solver state for any design-variable
input and any functional dictionary. -/
theorem spec_c9_sens_ignores_arguments (ext : Externals)
    (x1 x2 : DesignVars) (funcs1 funcs2 : PyDict) :
    cruiseFuncsSens ext x1 funcs1 = cruiseFuncsSens ext x2 funcs2 := rfl

/-- C10 counterexample: ap["cd"] is the string "fc_cd", so no dictionary
contains entries for ap["cd"], ap["cl"], ap["cm"] while lacking "fc_cd";
and on an input that does lack "fc_cd" (while holding fc_cl and fc_cm) the
COMBO SLSQP objCon raises KeyError("fc_cd") on its first statement: all
four history buffers stay at their initial equal length 0, no buffer
having gained an element. -/
theorem spec_c10_counterexample :
    apGet ap "cd" = "fc_cd" ∧
    dHasKey funcsNoCd "fc_cl" = true ∧
    dHasKey funcsNoCd "fc_cm" = true ∧
    dHasKey funcsNoCd "fc_cd" = false ∧
    ComboSLSQP.objCon funcsNoCd false ComboSLSQP.hist0
      = (ComboSLSQP.hist0, Except.error "KeyError: fc_cd") ∧
    ComboSLSQP.hist0.obj_vals_SLSQP.length = 0 ∧
    ComboSLSQP.hist0.cl_con_vals_SLSQP.length = 0 ∧
    ComboSLSQP.hist0.cm_con_vals_SLSQP.length = 0 ∧
    ComboSLSQP.hist0.fc_cd_vals_SLSQP.length = 0 :=
  ⟨rfl, rfl, rfl, rfl,
   ComboSLSQP.objCon_err_cd_slsqp funcsNoCd false ComboSLSQP.hist0 rfl,
   rfl, rfl, rfl, rfl⟩

/-- C10 (amended): in each COMBO variant, an input dictionary lacking the
key "fc_cd" makes objCon raise KeyError("fc_cd") on its first statement,
before any append: the four history buffers are returned exactly as they
were, so their equal-length property is preserved, not broken. -/
theorem spec_c10_missing_cd_aborts_before_appends (funcs : PyDict)
    (printOK : Bool) (h2 : ComboSLSQP.Hist) (h3 : ComboCONMIN.Hist)
    (h4 : ComboIPOPT.Hist) (hmiss : dHasKey funcs "fc_cd" = false) :
    ComboSLSQP.objCon funcs printOK h2 = (h2, Except.error "KeyError: fc_cd") ∧
    ComboCONMIN.objCon funcs printOK h3 = (h3, Except.error "KeyError: fc_cd") ∧
    ComboIPOPT.objCon funcs printOK h4 = (h4, Except.error "KeyError: fc_cd") := by
  have hnone : dLookup funcs "fc_cd" = none := by
    cases hl : dLookup funcs "fc_cd" with
    | none => rfl
    | some v => simp [dHasKey, hl] at hmiss
  exact ⟨ComboSLSQP.objCon_err_cd_slsqp funcs printOK h2 hnone,
    ComboCONMIN.objCon_err_cd_conmin funcs printOK h3 hnone,
    ComboIPOPT.objCon_err_cd_ipopt funcs printOK h4 hnone⟩

/-- Witness for the amended C10 at a concrete input lacking "fc_cd". -/
theorem spec_c10_witness :
    ComboSLSQP.objCon funcsNoCd true ComboSLSQP.hist0
      = (ComboSLSQP.hist0, Except.error "KeyError: fc_cd") ∧
    ComboCONMIN.objCon funcsNoCd true ComboCONMIN.hist0
      = (ComboCONMIN.hist0, Except.error "KeyError: fc_cd") ∧
    ComboIPOPT.objCon funcsNoCd true ComboIPOPT.hist0
      = (ComboIPOPT.hist0, Except.error "KeyError: fc_cd") :=
  spec_c10_missing_cd_aborts_before_appends funcsNoCd true ComboSLSQP.hist0
    ComboCONMIN.hist0 ComboIPOPT.hist0 rfl
